import Mathlib

/-!
Verification of the Speechi front-end session and usage-governance subsystem.

Shallow embedding of:
- `src/app/lib/storage.ts` (usage counter, history persistence, local user);
- `src/app/lib/authApi.ts` (token handling, `getMe`, `migrateMeetings`);
- the two `AuthProvider` variants in `AuthContext` (local-simulated and
  remote-backed), in particular `checkLimit`, the `usage` memo, `register`
  with guest-history migration, and the startup init effect.

JavaScript numbers that the code only adds and compares are modelled as
`Int`; dates are opaque `String`s in `YYYY-MM-DD` form compared for
equality, with "today" passed explicitly in place of `getTodayDate()`.
-/

/-- Result of `JSON.parse` + shape validation of the `speechi_usage`
localStorage slot, as classified by `getUsage` in `storage.ts`:
the key can be absent, hold a string that fails parsing or the
`typeof` field checks, or hold a well-typed record. The field checks are
`typeof usage.date === "string"`, `typeof usage.count === "number"`,
`typeof usage.lastUsedAt === "number"`; a well-typed record therefore has
an arbitrary (possibly negative) numeric count. -/
inductive StoredVal : Type where
  | absent : StoredVal
  | malformed : StoredVal
  | valid (date : String) (count : Int) (lastUsedAt : Int) : StoredVal
deriving DecidableEq, Repr

/-- `UsageData` from `storage.ts`. -/
structure UsageData where
  date : String
  count : Int
  lastUsedAt : Int
deriving DecidableEq, Repr

/-- `getUsage()` from `storage.ts`: absent/corrupted storage and a
stored date different from today yield `{date: today, count: 0,
lastUsedAt: 0}`; a well-typed record dated today is returned verbatim. -/
def getUsage (s : StoredVal) (today : String) : UsageData :=
  match s with
  | .absent => ⟨today, 0, 0⟩
  | .malformed => ⟨today, 0, 0⟩
  | .valid d c l => if d = today then ⟨d, c, l⟩ else ⟨today, 0, 0⟩

/-- `getUsage()` viewed as a storage transaction: the source contains no
`localStorage.setItem` call, so the persisted slot is returned unchanged. -/
def getUsageRun (s : StoredVal) (today : String) : UsageData × StoredVal :=
  (getUsage s today, s)

/-- `incrementUsage()` from `storage.ts`: re-derives the baseline via
`getUsage` (lazy reset), then persists and returns
`{date: today, count: baseline.count + 1, lastUsedAt: now}`. -/
def incrementUsage (s : StoredVal) (today : String) (now : Int) :
    UsageData × StoredVal :=
  let current := getUsage s today
  let updated : UsageData := ⟨today, current.count + 1, now⟩
  (updated, .valid updated.date updated.count updated.lastUsedAt)

/-- `n` successive `incrementUsage()` calls on the same calendar date. -/
def iterIncrement (n : Nat) (s : StoredVal) (today : String) (now : Int) :
    StoredVal :=
  match n with
  | 0 => s
  | Nat.succ m => iterIncrement m (incrementUsage s today now).2 today now

/-- The stored slot carries no record dated `today` (absent, corrupted, or
dated differently): the state right after a date rollover. -/
def freshFor (s : StoredVal) (today : String) : Prop :=
  match s with
  | .valid d _ _ => d ≠ today
  | _ => True

instance (s : StoredVal) (today : String) : Decidable (freshFor s today) := by
  unfold freshFor
  cases s <;> infer_instance

theorem getUsage_incrementUsage (s : StoredVal) (today : String) (now : Int) :
    getUsage (incrementUsage s today now).2 today = (incrementUsage s today now).1 := by
  simp [incrementUsage, getUsage]

theorem iterIncrement_count (n : Nat) (s : StoredVal) (today : String) (now : Int) :
    (getUsage (iterIncrement n s today now) today).count =
      (getUsage s today).count + n := by
  induction n generalizing s with
  | zero => simp [iterIncrement]
  | succ m ih =>
    rw [iterIncrement, ih, getUsage_incrementUsage]
    simp [incrementUsage]
    omega

theorem freshFor_count_zero (s : StoredVal) (today : String)
    (h : freshFor s today) : (getUsage s today).count = 0 := by
  cases s with
  | absent => rfl
  | malformed => rfl
  | valid d c l =>
    simp only [freshFor] at h
    simp [getUsage, h]

/-- C3: a stored usage record with date `D` and count `k > 0`, read on any
calendar date `D2 ≠ D`, yields `{date: D2, count: 0, lastUsedAt: 0}`, and
the read leaves the persisted slot untouched (still `D`, `k`). -/
theorem C3_rollover_read (D D2 : String) (k l : Int) (hk : 0 < k)
    (hne : D ≠ D2) :
    getUsageRun (StoredVal.valid D k l) D2 =
      (⟨D2, 0, 0⟩, StoredVal.valid D k l) := by
  simp [getUsageRun, getUsage, hne]

/-- C3 witness at a concrete stored record and read date. -/
theorem C3_rollover_read_witness :
    (0 : Int) < 1 ∧ "2024-01-01" ≠ "2024-01-02" ∧
    getUsageRun (StoredVal.valid "2024-01-01" 1 0) "2024-01-02" =
      (⟨"2024-01-02", 0, 0⟩, StoredVal.valid "2024-01-01" 1 0) :=
  ⟨by decide, by decide,
    C3_rollover_read "2024-01-01" "2024-01-02" 1 0 (by decide) (by decide)⟩

/-- C4: `incrementUsage` derives the baseline via the lazy-reset read and
persists and returns `{date: today, count: baseline.count + 1, lastUsedAt:
now}`; over any same-date sequence of increments the observed count is
non-decreasing, and from a post-rollover state it equals the number of
increments performed. -/
theorem C4_increment_monotone (s : StoredVal) (today : String) (now : Int)
    (n m : Nat) :
    (incrementUsage s today now).1 =
      ⟨today, (getUsage s today).count + 1, now⟩ ∧
    (incrementUsage s today now).2 =
      StoredVal.valid today ((getUsage s today).count + 1) now ∧
    (getUsage (iterIncrement n s today now) today).count =
      (getUsage s today).count + n ∧
    (m ≤ n →
      (getUsage (iterIncrement m s today now) today).count ≤
        (getUsage (iterIncrement n s today now) today).count) ∧
    (freshFor s today →
      (getUsage (iterIncrement n s today now) today).count = n) := by
  refine ⟨rfl, rfl, iterIncrement_count n s today now, ?_, ?_⟩
  · intro hmn
    rw [iterIncrement_count, iterIncrement_count]
    omega
  · intro hf
    rw [iterIncrement_count, freshFor_count_zero s today hf]
    omega

/-- C4 witness: three increments on an empty slot give count 3. -/
theorem C4_increment_monotone_witness :
    (1 ≤ 3 ∧ freshFor StoredVal.absent "2024-01-02") ∧
    (getUsage (iterIncrement 3 StoredVal.absent "2024-01-02" 7) "2024-01-02").count = 3 := by
  refine ⟨⟨by decide, by decide⟩, ?_⟩
  exact (C4_increment_monotone StoredVal.absent "2024-01-02" 7 3 1).2.2.2.2
    (by decide)

/-- C8 counterexample: the shape check in `getUsage` only tests
`typeof count === "number"`, so a hand-edited record dated today with
count `-5` is returned verbatim — the returned count is negative. -/
theorem C8_negative_count_cex :
    (getUsage (StoredVal.valid "2024-01-01" (-5) 0) "2024-01-01").count = -5 ∧
    ¬ (0 : Int) ≤ (getUsage (StoredVal.valid "2024-01-01" (-5) 0) "2024-01-01").count := by
  constructor
  · simp [getUsage]
  · simp [getUsage]

/-- C8 (amended): `getUsage` returns count 0 for absent, corrupted,
wrongly-typed or differently-dated storage, and returns the stored numeric
count verbatim (whatever its sign) when the record is well-typed and dated
today; counts written by the code's own `incrementUsage` preserve
non-negativity. -/
theorem C8_count_amended (s : StoredVal) (today : String) :
    ((getUsage s today).count = 0 ∨
      ∃ l, s = StoredVal.valid today (getUsage s today).count l) ∧
    (∀ now : Int, 0 ≤ (getUsage s today).count →
      0 ≤ ((incrementUsage s today now).1).count) := by
  constructor
  · cases s with
    | absent => exact Or.inl rfl
    | malformed => exact Or.inl rfl
    | valid d c l =>
      by_cases h : d = today
      · subst h
        refine Or.inr ⟨l, ?_⟩
        simp [getUsage]
      · left
        simp [getUsage, h]
  · intro now h
    simp only [incrementUsage]
    omega

/-- C8 witness: a non-negative stored count stays non-negative across an
increment. -/
theorem C8_count_amended_witness :
    (0 : Int) ≤ (getUsage (StoredVal.valid "2024-01-01" 2 0) "2024-01-01").count ∧
    0 ≤ ((incrementUsage (StoredVal.valid "2024-01-01" 2 0) "2024-01-01" 9).1).count := by
  refine ⟨by decide, ?_⟩
  exact (C8_count_amended (StoredVal.valid "2024-01-01" 2 0) "2024-01-01").2 9
    (by decide)

/-- `LocalUser` from `storage.ts` (local-simulated variant). -/
structure LocalUser where
  id : String
  name : String
  email : String
  createdAt : Int
deriving DecidableEq, Repr

/-- Result record of `canUseService()` in `storage.ts`. -/
structure CanUse where
  allowed : Bool
  used : Int
  limit : Int
  isRegistered : Bool
deriving DecidableEq, Repr

/-- `canUseService()` from `storage.ts`: fresh `getUser`/`getUsage` reads,
`limit = isRegistered ? 5 : 1`, `allowed = used < limit`. -/
def canUseService (user : Option LocalUser) (s : StoredVal) (today : String) :
    CanUse :=
  let usage := getUsage s today
  let isRegistered := user.isSome
  let limit : Int := if isRegistered then 5 else 1
  let used := usage.count
  ⟨decide (used < limit), used, limit, isRegistered⟩

/-- Result record of `checkLimit()` in both `AuthContext` variants. -/
structure LimitCheck where
  canProceed : Bool
  limitReached : Bool
  isRegistered : Bool
  used : Int
  limit : Int
deriving DecidableEq, Repr

/-- `checkLimit` of the local-simulated `AuthProvider`: re-reads the usage
counter via `getUsage()` at the moment of the call ("Refresh first to
ensure we have latest data"), then gates on `used < limit` with
`limit = isRegistered ? 5 : 1`. -/
def checkLimitLocal (user : Option LocalUser) (s : StoredVal) (today : String) :
    LimitCheck :=
  let currentUsage := getUsage s today
  let isRegistered := user.isSome
  let limit : Int := if isRegistered then 5 else 1
  let used := currentUsage.count
  let allowed := decide (used < limit)
  ⟨allowed, !allowed, isRegistered, used, limit⟩

/-- `AuthUser` of the remote-backed `AuthContext` (the `name` field is
computed from first and last name). -/
structure AuthUserCtx where
  id : String
  firstName : String
  lastName : String
  email : String
  name : String
deriving DecidableEq, Repr

/-- `UsageInfo` (`{usedToday, dailyLimit}`) as held in `serverUsage`. -/
structure UsageInfoR where
  usedToday : Int
  dailyLimit : Int
deriving DecidableEq, Repr

/-- Reactive state of the remote-backed `AuthProvider`: the `user` state,
the `serverUsage` state (last value received from the backend), and the
`guestUsage` state (the cached result of an earlier `getGuestUsage()`
read, updated only by `incrementUsage`, `refreshUsage`, `logout` and the
cross-tab storage listener). -/
structure RemoteAuthState where
  user : Option AuthUserCtx
  serverUsage : UsageInfoR
  guestUsage : UsageData
deriving DecidableEq, Repr

/-- `checkLimit` of the remote-backed `AuthProvider`:
`limit = isRegistered ? serverUsage.dailyLimit : 1`,
`used = isRegistered ? serverUsage.usedToday : guestUsage.count`. Note it
reads the cached `guestUsage` React state, not a fresh `getUsage()` call. -/
def checkLimitRemote (st : RemoteAuthState) : LimitCheck :=
  let isRegistered := st.user.isSome
  let limit : Int := if isRegistered then st.serverUsage.dailyLimit else 1
  let used := if isRegistered then st.serverUsage.usedToday else st.guestUsage.count
  let allowed := decide (used < limit)
  ⟨allowed, !allowed, isRegistered, used, limit⟩

/-- The `usage` memo of the remote-backed `AuthProvider`: `serverUsage`
when authenticated, `{usedToday: guestUsage.count, dailyLimit: 1}` for a
guest. -/
def usageMemo (st : RemoteAuthState) : UsageInfoR :=
  if st.user.isSome then st.serverUsage else ⟨st.guestUsage.count, 1⟩

/-- A remote-variant session state in which the cached guest usage was
read yesterday: the persisted slot holds yesterday's record, the cached
`guestUsage` state equals that record, and the calendar date has since
rolled over to `"2024-01-02"`. -/
def staleGuestState : RemoteAuthState :=
  ⟨none, ⟨0, 5⟩, ⟨"2024-01-01", 1, 0⟩⟩

/-- C1 counterexample: in the remote-backed variant, `checkLimit` for a
guest uses the cached `guestUsage` state instead of re-reading the local
counter with lazy date reset. In `staleGuestState` the fresh read returns
count 0 (date rolled over), so the claim requires `canProceed = true`,
but the code answers `canProceed = false` from the stale cached count 1. -/
theorem C1_checkLimit_cached_cex :
    (checkLimitRemote staleGuestState).canProceed = false ∧
    (getUsage (StoredVal.valid "2024-01-01" 1 0) "2024-01-02").count = 0 ∧
    ¬ ((checkLimitRemote staleGuestState).canProceed = true ↔
        (getUsage (StoredVal.valid "2024-01-01" 1 0) "2024-01-02").count <
          (checkLimitRemote staleGuestState).limit) := by
  refine ⟨by decide, by decide, ?_⟩
  decide

/-- C1 (amended): in both variants `checkLimit` returns `canProceed = true`
iff `used < limit` and `limitReached = !canProceed`; the local-simulated
variant's `used` is re-read from the local counter (lazy reset applied) at
the moment of the call, while the remote-backed variant's `used` is the
cached `guestUsage` state for guests (`serverUsage.usedToday` for
registered users), not a fresh read. -/
theorem C1_checkLimit_gating_amended (user : Option LocalUser)
    (s : StoredVal) (today : String) (st : RemoteAuthState) :
    ((checkLimitLocal user s today).canProceed = true ↔
      (checkLimitLocal user s today).used < (checkLimitLocal user s today).limit) ∧
    (checkLimitLocal user s today).limitReached =
      !(checkLimitLocal user s today).canProceed ∧
    (checkLimitLocal user s today).used = (getUsage s today).count ∧
    ((checkLimitRemote st).canProceed = true ↔
      (checkLimitRemote st).used < (checkLimitRemote st).limit) ∧
    (checkLimitRemote st).limitReached = !(checkLimitRemote st).canProceed ∧
    (checkLimitRemote st).used =
      (if st.user.isSome then st.serverUsage.usedToday else st.guestUsage.count) := by
  refine ⟨?_, rfl, rfl, ?_, rfl, rfl⟩
  · simp [checkLimitLocal]
  · simp [checkLimitRemote]

/-- A session state in which the backend reported a daily limit of 7. -/
def serverLimit7State : RemoteAuthState :=
  ⟨some ⟨"u1", "Ada", "L", "ada@x.com", "Ada L"⟩, ⟨0, 7⟩, ⟨"2024-01-01", 0, 0⟩⟩

/-- C2 counterexample: in the remote-backed variant the registered-tier
limit is `serverUsage.dailyLimit`, taken verbatim from the backend; after
a response carrying `dailyLimit = 7`, `checkLimit` and the `usage` memo
report limit 7 — an authenticated session whose limit is neither 1 nor 5. -/
theorem C2_server_limit_cex :
    (checkLimitRemote serverLimit7State).isRegistered = true ∧
    (checkLimitRemote serverLimit7State).limit = 7 ∧
    (usageMemo serverLimit7State).dailyLimit = 7 ∧
    ¬ ((checkLimitRemote serverLimit7State).limit = 1 ∨
        (checkLimitRemote serverLimit7State).limit = 5) := by
  refine ⟨by decide, by decide, by decide, ?_⟩
  decide

/-- C2 (amended): the guest limit is 1 everywhere; `canUseService` and the
local-simulated `checkLimit` produce limit 5 exactly for registered users
(so only 1 and 5 occur there); the remote-backed variant instead reports
`serverUsage.dailyLimit` for registered users — the last server-provided
value (initially 5), which the client does not constrain to 5. -/
theorem C2_daily_limit_amended (user : Option LocalUser) (s : StoredVal)
    (today : String) (st : RemoteAuthState) :
    ((canUseService user s today).limit = 1 ∨
      (canUseService user s today).limit = 5) ∧
    ((canUseService user s today).limit = 5 ↔ user.isSome = true) ∧
    ((checkLimitLocal user s today).limit =
      if user.isSome then 5 else 1) ∧
    ((checkLimitRemote st).limit =
      if st.user.isSome then st.serverUsage.dailyLimit else 1) ∧
    ((usageMemo st).dailyLimit =
      if st.user.isSome then st.serverUsage.dailyLimit else 1) := by
  refine ⟨?_, ?_, rfl, rfl, ?_⟩
  · cases user <;> simp [canUseService]
  · cases user <;> simp [canUseService]
  · cases h : st.user <;> simp [usageMemo, h]

/-- `HistoryActionItem` from `storage.ts`. -/
structure HistoryActionItem where
  description : String
  owner : Option String
deriving DecidableEq, Repr

/-- `HistoryItem` from `storage.ts`; `exports` is the pair
`(word, pdf)`. -/
structure HistoryItem where
  id : String
  createdAt : String
  fileName : String
  outputLanguage : String
  summary : String
  transcriptRaw : String
  transcriptClean : String
  participants : List String
  decisions : List String
  actionItems : List HistoryActionItem
  exports : Bool × Bool
deriving DecidableEq, Repr

/-- `MAX_HISTORY` from `storage.ts`. -/
def MAX_HISTORY : Nat := 100

/-- `saveHistory(items)`: persists `items.slice(-MAX_HISTORY)`, i.e. the
last `MAX_HISTORY` entries, dropping the head on overflow. -/
def saveHistory (items : List HistoryItem) : List HistoryItem :=
  items.drop (items.length - MAX_HISTORY)

/-- An export format, the `"word" | "pdf"` argument of
`updateHistoryExports`. -/
inductive ExportFormat : Type where
  | word : ExportFormat
  | pdf : ExportFormat
deriving DecidableEq, Repr

/-- `{ ...e.exports, [format]: true }`. -/
def setExportFlag (e : Bool × Bool) (f : ExportFormat) : Bool × Bool :=
  match f with
  | .word => (true, e.2)
  | .pdf => (e.1, true)

/-- `addHistoryItem(item)`: dedup against an existing entry with the same
file name created within a 60s window (timestamps read through the
caller's `new Date(...).getTime()`, modelled by `toTime`); otherwise append
the new entry and persist through `saveHistory`. Returns the entry and the
newly persisted list. -/
def addHistoryItem (toTime : String → Int) (stored : List HistoryItem)
    (item : HistoryItem) (newId : String) : HistoryItem × List HistoryItem :=
  match stored.find? (fun e =>
      e.fileName = item.fileName ∧
      (toTime e.createdAt - toTime item.createdAt).natAbs < 60000) with
  | some existing => (existing, stored)
  | none =>
    let entry := { item with id := newId }
    (entry, saveHistory (stored ++ [entry]))

/-- Flip the export flag of the first entry with the given id (the source
uses `findIndex` and updates that single entry in place). -/
def updateFirstExport (id : String) (f : ExportFormat) :
    List HistoryItem → List HistoryItem
  | [] => []
  | e :: rest =>
    if e.id = id then { e with exports := setExportFlag e.exports f } :: rest
    else e :: updateFirstExport id f rest

/-- `updateHistoryExports(id, format)`: no-op when the id is absent
(`findIndex` returns -1), otherwise update the entry and persist through
`saveHistory`. -/
def updateHistoryExports (stored : List HistoryItem) (id : String)
    (f : ExportFormat) : List HistoryItem :=
  if stored.any (fun e => e.id = id) then
    saveHistory (updateFirstExport id f stored)
  else stored

/-- `deleteHistoryItem(id)`: filter out the entry and persist through
`saveHistory`. -/
def deleteHistoryItem (stored : List HistoryItem) (id : String) :
    List HistoryItem :=
  saveHistory (stored.filter (fun e => e.id ≠ id))

/-- `clearHistory()`: persist the empty list. -/
def clearHistoryStored : List HistoryItem :=
  saveHistory []

/-- `getHistory()`: the persisted list, newest first. -/
def getHistory (stored : List HistoryItem) : List HistoryItem :=
  stored.reverse

theorem saveHistory_length_le (items : List HistoryItem) :
    (saveHistory items).length ≤ MAX_HISTORY := by
  simp [saveHistory]
  omega

theorem length_updateFirstExport (id : String) (f : ExportFormat)
    (l : List HistoryItem) :
    (updateFirstExport id f l).length = l.length := by
  induction l with
  | nil => rfl
  | cons e rest ih =>
    by_cases h : e.id = id <;> simp [updateFirstExport, h, ih]

/-- C9: every persist goes through `saveHistory`, which keeps at most
`MAX_HISTORY = 100` entries — exactly the tail of the list being saved,
dropping the `length - 100` oldest entries at the head; consequently each
history-persisting operation (add, update, delete, clear) leaves a stored
list of at most 100 entries. -/
theorem C9_history_cap (items stored : List HistoryItem) (id newId : String)
    (f : ExportFormat) (toTime : String → Int) (item : HistoryItem) :
    (saveHistory items).length ≤ 100 ∧
    items.take (items.length - 100) ++ saveHistory items = items ∧
    (100 < items.length →
      (items.take (items.length - 100)).length = items.length - 100 ∧
      (saveHistory items).length = 100) ∧
    (stored.length ≤ 100 →
      (addHistoryItem toTime stored item newId).2.length ≤ 100 ∧
      (updateHistoryExports stored id f).length ≤ 100 ∧
      (deleteHistoryItem stored id).length ≤ 100 ∧
      clearHistoryStored.length ≤ 100) := by
  refine ⟨saveHistory_length_le items, ?_, ?_, ?_⟩
  · simp [saveHistory, MAX_HISTORY]
  · intro h
    constructor
    · simp
    · simp [saveHistory, MAX_HISTORY]
      omega
  · intro h
    refine ⟨?_, ?_, ?_, ?_⟩
    · unfold addHistoryItem
      cases stored.find? (fun e =>
          e.fileName = item.fileName ∧
          (toTime e.createdAt - toTime item.createdAt).natAbs < 60000) with
      | some existing => simpa using h
      | none => simpa using saveHistory_length_le _
    · unfold updateHistoryExports
      by_cases hid : stored.any (fun e => e.id = id)
      · simpa [hid] using saveHistory_length_le _
      · simpa [hid] using h
    · exact saveHistory_length_le _
    · exact saveHistory_length_le _

/-- C9 witness: operations on a concrete two-entry store stay within the
cap. -/
theorem C9_history_cap_witness :
    ([] : List HistoryItem).length ≤ 100 ∧
    (deleteHistoryItem [] "x").length ≤ 100 ∧
    clearHistoryStored.length ≤ 100 := by
  have h := C9_history_cap [] [] "x" "y" ExportFormat.word (fun _ => 0)
    ⟨"i", "c", "f", "en", "s", "r", "t", [], [], [], (false, false)⟩
  exact ⟨by decide, (h.2.2.2 (by decide)).2.2.1, (h.2.2.2 (by decide)).2.2.2⟩

/-- State of the auth client in `authApi.ts`: the module-level in-memory
`_token`, the tab-scoped `sessionStorage` slot `"speechi_token"`, and the
durable `localStorage` key/value store (which `authApi.ts` never
touches). -/
structure ClientState where
  mem : Option String
  sess : Option String
  durable : List (String × String)
deriving DecidableEq, Repr

/-- `setToken(token)`: assigns `_token` and mirrors the value into (or
removes it from) `sessionStorage`. -/
def setToken (t : Option String) (st : ClientState) : ClientState :=
  { st with mem := t, sess := t }

/-- `getToken()`: the in-memory token if present, otherwise recover from
`sessionStorage` (caching it back into `_token`). -/
def getToken (st : ClientState) : Option String × ClientState :=
  match st.mem with
  | some t => (some t, st)
  | none =>
    match st.sess with
    | some t => (some t, { st with mem := some t })
    | none => (none, st)

/-- `clearToken()`: drops both the in-memory and the session copies. -/
def clearToken (st : ClientState) : ClientState :=
  { st with mem := none, sess := none }

/-- `AuthResponse` from `authApi.ts`. -/
structure ClientAuthResponse where
  userId : String
  firstName : String
  lastName : String
  email : String
  token : String
  usage : UsageInfoR
deriving DecidableEq, Repr

/-- `getMe()`: returns `null` when no token is stored; otherwise performs
the `auth/me` request (its outcome passed in as `resp`), stores the
rotated token on success, and on rejection clears the token and returns
`null` instead of propagating the error. -/
def getMe (resp : Except Unit ClientAuthResponse) (st : ClientState) :
    Option ClientAuthResponse × ClientState :=
  match getToken st with
  | (none, st1) => (none, st1)
  | (some _, st1) =>
    match resp with
    | .ok r => (some r, setToken (some r.token) st1)
    | .error _ => (none, clearToken st1)

/-- One call against the auth client, with the backend's answer (where
one is involved) supplied as data: `register`/`login` either return a
token or throw before any token write; `getMe` behaves per `getMe`
above; `logout` clears the token. -/
inductive AuthOp : Type where
  | setTok (t : Option String) : AuthOp
  | getTok : AuthOp
  | clearTok : AuthOp
  | registerOp (resp : Option String) : AuthOp
  | loginOp (resp : Option String) : AuthOp
  | getMeOp (resp : Except Unit ClientAuthResponse) : AuthOp
  | logoutOp : AuthOp

/-- Effect of one auth-client operation on the client state. -/
def applyAuthOp (st : ClientState) (op : AuthOp) : ClientState :=
  match op with
  | .setTok t => setToken t st
  | .getTok => (getToken st).2
  | .clearTok => clearToken st
  | .registerOp resp =>
    match resp with
    | some tok => setToken (some tok) st
    | none => st
  | .loginOp resp =>
    match resp with
    | some tok => setToken (some tok) st
    | none => st
  | .getMeOp resp => (getMe resp st).2
  | .logoutOp => clearToken st

/-- Run a sequence of auth-client operations. -/
def runAuthOps (ops : List AuthOp) (st : ClientState) : ClientState :=
  ops.foldl applyAuthOp st

/-- A durable store none of whose values is the string `tok`. -/
def tokenFreeStore (d : List (String × String)) (tok : String) : Prop :=
  ∀ p ∈ d, p.2 ≠ tok

theorem durable_getToken (st : ClientState) :
    (getToken st).2.durable = st.durable := by
  unfold getToken
  cases st.mem <;> [skip; rfl]
  cases st.sess <;> rfl

theorem durable_applyAuthOp (st : ClientState) (op : AuthOp) :
    (applyAuthOp st op).durable = st.durable := by
  cases op with
  | setTok t => rfl
  | getTok => exact durable_getToken st
  | clearTok => rfl
  | registerOp resp => cases resp <;> rfl
  | loginOp resp => cases resp <;> rfl
  | getMeOp resp =>
    show (getMe resp st).2.durable = st.durable
    unfold getMe
    rcases hg : getToken st with ⟨t, st1⟩
    have h1 : st1.durable = st.durable := by
      have := durable_getToken st
      rw [hg] at this
      exact this
    cases t with
    | none => simpa using h1
    | some tok => cases resp <;> simpa [setToken, clearToken] using h1
  | logoutOp => rfl

/-- C6: no auth-client operation (`setToken`, `getToken`, `clearToken`,
`register`, `login`, `getMe`, `logout`) writes to durable local storage:
after any sequence of them the durable store is byte-for-byte the initial
one, so if the durable store starts token-free it stays token-free — the
token only ever lives in `_token` and the tab-scoped session slot. -/
theorem C6_token_not_durable (ops : List AuthOp) (st : ClientState) :
    (runAuthOps ops st).durable = st.durable ∧
    (∀ tok : String, tokenFreeStore st.durable tok →
      tokenFreeStore (runAuthOps ops st).durable tok) := by
  have hd : (runAuthOps ops st).durable = st.durable := by
    induction ops generalizing st with
    | nil => rfl
    | cons op rest ih =>
      show (runAuthOps rest (applyAuthOp st op)).durable = st.durable
      rw [ih (applyAuthOp st op), durable_applyAuthOp]
  exact ⟨hd, fun tok h => by rwa [hd]⟩

/-- C6 witness: a register/getMe/logout sequence on a state whose durable
store holds the history key leaves the durable store unchanged and free of
the issued token. -/
theorem C6_token_not_durable_witness :
    tokenFreeStore [("speechi.history", "[]")] "tok-1" ∧
    tokenFreeStore
      (runAuthOps
        [AuthOp.registerOp (some "tok-1"), AuthOp.getTok, AuthOp.logoutOp]
        ⟨none, none, [("speechi.history", "[]")]⟩).durable "tok-1" := by
  refine ⟨?_, ?_⟩
  · intro p hp
    simp at hp
    simp [hp]
  · exact (C6_token_not_durable
      [AuthOp.registerOp (some "tok-1"), AuthOp.getTok, AuthOp.logoutOp]
      ⟨none, none, [("speechi.history", "[]")]⟩).2 "tok-1"
      (by
        intro p hp
        simp at hp
        simp [hp])

/-- `apiUserToAuthUser` from the remote-backed `AuthContext`: copies the
identity fields and computes `name` as the trimmed concatenation of first
and last name. -/
def apiUserToAuthUser (r : ClientAuthResponse) : AuthUserCtx :=
  ⟨r.userId, r.firstName, r.lastName, r.email,
    (r.firstName ++ " " ++ r.lastName).trim⟩

/-- The init effect of the remote-backed `AuthProvider`: a non-null
`initializeAuth()` response installs the user and server usage; a null
response (no token, or a rejected/expired token) leaves the state as it
was — the session silently stays in the guest state. -/
def applyInit (st : RemoteAuthState) (resp : Option ClientAuthResponse) :
    RemoteAuthState :=
  match resp with
  | some r => { st with user := some (apiUserToAuthUser r), serverUsage := r.usage }
  | none => st

/-- C7: session restore never surfaces an error. With no stored token,
`getMe` answers `null` without touching the client state; with a stored
token and a rejecting backend, it answers `null` and clears the token
(both the in-memory and the session copy, the durable store untouched);
and a null restore response leaves the provider in its initial (guest)
state. -/
theorem C7_getMe_fallback (st : ClientState) (rst : RemoteAuthState) :
    (st.mem = none → st.sess = none →
      ∀ resp : Except Unit ClientAuthResponse, getMe resp st = (none, st)) ∧
    ((getToken st).1.isSome = true →
      (getMe (Except.error ()) st).1 = none ∧
      (getMe (Except.error ()) st).2.mem = none ∧
      (getMe (Except.error ()) st).2.sess = none ∧
      (getMe (Except.error ()) st).2.durable = st.durable) ∧
    applyInit rst none = rst := by
  refine ⟨?_, ?_, rfl⟩
  · intro hm hs resp
    simp [getMe, getToken, hm, hs]
  · intro hsome
    unfold getMe
    rcases hg : getToken st with ⟨t, st1⟩
    have h1 : st1.durable = st.durable := by
      have := durable_getToken st
      rw [hg] at this
      exact this
    cases t with
    | none => simp [hg] at hsome
    | some tok => simp [clearToken, h1]

/-- C7 witness: a state holding token `"t0"` in memory, hit by a backend
rejection, falls back to no token with the durable store intact. -/
theorem C7_getMe_fallback_witness :
    (getToken ⟨some "t0", some "t0", [("speechi.theme", "dark")]⟩).1.isSome = true ∧
    (getMe (Except.error ()) ⟨some "t0", some "t0", [("speechi.theme", "dark")]⟩).1 = none ∧
    (getMe (Except.error ()) ⟨some "t0", some "t0", [("speechi.theme", "dark")]⟩).2.mem = none := by
  have h := (C7_getMe_fallback ⟨some "t0", some "t0", [("speechi.theme", "dark")]⟩
    ⟨none, ⟨0, 5⟩, ⟨"2024-01-01", 0, 0⟩⟩).2.1 (by decide)
  exact ⟨by decide, h.1, h.2.1⟩

/-- Modelled from the spec: the backend `auth/migrate-meetings` endpoint
(`{meetings[]} -> {migrated: count}`) is not part of this repository; per
the spec it bulk-imports the submitted guest history and reports the
number of migrated meetings, i.e. the count of submitted items. -/
def migrateMeetingsResponse (meetings : List HistoryItem) : Nat :=
  meetings.length

/-- `register` of the remote-backed `AuthProvider`. `resp` is the outcome
of `authApi.register` (`none` = the call threw). On success: read the
guest history; if non-empty, call `migrateMeetings` with it and clear the
local history only when that call succeeds (`migrateOk`), swallowing a
failure; then install the user and server usage. Returns
`(success, reported migrated count, new provider state, new stored
history)`. -/
def registerRemote (resp : Option ClientAuthResponse) (migrateOk : Bool)
    (st : RemoteAuthState) (stored : List HistoryItem) :
    Bool × Option Nat × RemoteAuthState × List HistoryItem :=
  match resp with
  | none => (false, none, st, stored)
  | some r =>
    let guestMeetings := getHistory stored
    let migration : Option Nat × List HistoryItem :=
      if 0 < guestMeetings.length then
        if migrateOk then
          (some (migrateMeetingsResponse guestMeetings), clearHistoryStored)
        else (none, stored)
      else (none, stored)
    (true, migration.1,
      { st with user := some (apiUserToAuthUser r), serverUsage := r.usage },
      migration.2)

/-- C5: during a successful `register` with a non-empty guest history, a
failed `migrateMeetings` call leaves the local history exactly as it was
and registration still reports success; a successful call empties the
local history and the reported migrated count equals the pre-call history
length. -/
theorem C5_migration_nonloss (r : ClientAuthResponse)
    (st : RemoteAuthState) (stored : List HistoryItem)
    (hne : stored ≠ []) :
    ((registerRemote (some r) false st stored).1 = true ∧
      (registerRemote (some r) false st stored).2.2.2 = stored) ∧
    ((registerRemote (some r) true st stored).1 = true ∧
      (registerRemote (some r) true st stored).2.2.2 = [] ∧
      (registerRemote (some r) true st stored).2.1 = some stored.length) := by
  have hlen : 0 < (getHistory stored).length := by
    simp [getHistory]
    exact List.length_pos.mpr hne
  refine ⟨⟨?_, ?_⟩, ?_, ?_, ?_⟩
  · rfl
  · simp [registerRemote, hlen]
  · rfl
  · simp [registerRemote, hlen, clearHistoryStored, saveHistory]
  · have hp : 0 < stored.length := List.length_pos.mpr hne
    simp [registerRemote, hlen, migrateMeetingsResponse, getHistory, hp]

/-- C5 witness: a one-item guest history survives a failed migration and
is emptied (with reported count 1) by a successful one. -/
theorem C5_migration_nonloss_witness :
    ([(⟨"i1", "c", "f", "en", "s", "r", "t", [], [], [], (false, false)⟩ : HistoryItem)] ≠ []) ∧
    (registerRemote (some ⟨"u1", "Ada", "L", "a@x.com", "tk", ⟨0, 5⟩⟩) false
        ⟨none, ⟨0, 5⟩, ⟨"2024-01-01", 0, 0⟩⟩
        [⟨"i1", "c", "f", "en", "s", "r", "t", [], [], [], (false, false)⟩]).2.2.2 =
      [⟨"i1", "c", "f", "en", "s", "r", "t", [], [], [], (false, false)⟩] ∧
    (registerRemote (some ⟨"u1", "Ada", "L", "a@x.com", "tk", ⟨0, 5⟩⟩) true
        ⟨none, ⟨0, 5⟩, ⟨"2024-01-01", 0, 0⟩⟩
        [⟨"i1", "c", "f", "en", "s", "r", "t", [], [], [], (false, false)⟩]).2.1 =
      some 1 := by
  have h := C5_migration_nonloss ⟨"u1", "Ada", "L", "a@x.com", "tk", ⟨0, 5⟩⟩
    ⟨none, ⟨0, 5⟩, ⟨"2024-01-01", 0, 0⟩⟩
    [⟨"i1", "c", "f", "en", "s", "r", "t", [], [], [], (false, false)⟩]
    (by decide)
  exact ⟨by decide, h.1.2, h.2.2.2⟩

theorem toNat_ofNat_of_valid {m : Nat} (h : m.isValidChar) :
    (Char.ofNat m).toNat = m := by
  simp [Char.ofNat, h, Char.ofNatAux, Char.toNat, UInt32.toNat,
    BitVec.toNat_ofNatLt]

theorem toLower_idem (c : Char) :
    Char.toLower (Char.toLower c) = Char.toLower c := by
  unfold Char.toLower
  by_cases h : c.toNat ≥ 65 ∧ c.toNat ≤ 90
  · rw [if_pos h]
    have hv : Nat.isValidChar (c.toNat + 32) := Or.inl (by omega)
    rw [toNat_ofNat_of_valid hv]
    rw [if_neg (by omega)]
  · rw [if_neg h, if_neg h]

/-- JavaScript `String.prototype.trim()`: strip whitespace from both ends
of the character sequence. -/
def jsTrim (s : String) : String :=
  ⟨((s.data.dropWhile Char.isWhitespace).reverse.dropWhile
      Char.isWhitespace).reverse⟩

/-- JavaScript `String.prototype.toLowerCase()`: lowercase the letters of
the character sequence. -/
def jsToLower (s : String) : String :=
  ⟨s.data.map Char.toLower⟩

theorem jsToLower_idem (s : String) :
    jsToLower (jsToLower s) = jsToLower s := by
  unfold jsToLower
  refine congrArg String.mk ?_
  rw [List.map_map]
  exact List.map_congr_left (fun c _ => toLower_idem c)

/-- `createUser(name, email)` from `storage.ts`: stores
`{id: uuid, name: name.trim(), email: email.trim().toLowerCase(),
createdAt: now}` (the generated uuid and clock reading are passed in). -/
def createUser (name email newId : String) (now : Int) : LocalUser :=
  ⟨newId, jsTrim name, jsToLower (jsTrim email), now⟩

/-- `findUserByEmail(email)` from `storage.ts`: `null` when no user is
stored; otherwise the stored user exactly when
`user.email.toLowerCase() === email.trim().toLowerCase()`. -/
def findUserByEmail (stored : Option LocalUser) (email : String) :
    Option LocalUser :=
  match stored with
  | none => none
  | some u =>
    if jsToLower u.email = jsToLower (jsTrim email) then some u else none

/-- `loginByEmail(email)` from `storage.ts`: delegates to
`findUserByEmail`. -/
def loginByEmail (stored : Option LocalUser) (email : String) :
    Option LocalUser :=
  findUserByEmail stored email

/-- C10: `createUser` stores the email trimmed and lowercased, and login
compares normalized emails: any input whose trimmed, lowercased form
matches that of the registered email logs the stored user in, while a
missing stored user or a normalized mismatch yields `null`. -/
theorem C10_email_normalization (name e0 newId : String) (now : Int)
    (e : String) :
    (createUser name e0 newId now).email = jsToLower (jsTrim e0) ∧
    loginByEmail none e = none ∧
    (jsToLower (jsTrim e) = jsToLower (jsTrim e0) →
      loginByEmail (some (createUser name e0 newId now)) e =
        some (createUser name e0 newId now)) ∧
    (jsToLower (jsTrim e) ≠ jsToLower (jsTrim e0) →
      loginByEmail (some (createUser name e0 newId now)) e = none) := by
  refine ⟨rfl, rfl, ?_, ?_⟩
  · intro h
    have : jsToLower (createUser name e0 newId now).email =
        jsToLower (jsTrim e) := by
      show jsToLower (jsToLower (jsTrim e0)) = jsToLower (jsTrim e)
      rw [jsToLower_idem, h]
    simp [loginByEmail, findUserByEmail, this]
  · intro h
    have : jsToLower (createUser name e0 newId now).email ≠
        jsToLower (jsTrim e) := by
      show jsToLower (jsToLower (jsTrim e0)) ≠ jsToLower (jsTrim e)
      rw [jsToLower_idem]
      exact fun hc => h hc.symm
    simp [loginByEmail, findUserByEmail, this]

/-- C10 witness: registration with `"John@X.com "` and a later login with
`"  JOHN@x.COM"` (same email up to case and surrounding whitespace)
succeeds; `"other@x.com"` does not. -/
theorem C10_email_normalization_witness :
    jsToLower (jsTrim "  JOHN@x.COM") = jsToLower (jsTrim "John@X.com ") ∧
    loginByEmail (some (createUser "John" "John@X.com " "id1" 0))
      "  JOHN@x.COM" = some (createUser "John" "John@X.com " "id1" 0) ∧
    jsToLower (jsTrim "other@x.com") ≠ jsToLower (jsTrim "John@X.com ") ∧
    loginByEmail (some (createUser "John" "John@X.com " "id1" 0))
      "other@x.com" = none := by
  refine ⟨by decide, ?_, by decide, ?_⟩
  · exact (C10_email_normalization "John" "John@X.com " "id1" 0
      "  JOHN@x.COM").2.2.1 (by decide)
  · exact (C10_email_normalization "John" "John@X.com " "id1" 0
      "other@x.com").2.2.2 (by decide)
